import Mathlib

/-!
Verification development for the Vidiyome social-publishing server.

The definitions below are a shallow embedding of the TypeScript source:
  * `sanitizeInput` embeds the request sanitizer of `src/routes.ts` (lines 25-57);
  * the storage model embeds `MemStorage` of `src/storage.ts`;
  * the `SocialMediaService` model embeds the service class found in
    `src/platform-connect.tsx` lines 531-904 (config shape, `loadConfig`,
    `isPlatformConfigured`, `setAccessToken`, `getAuthorizationUrl`);
  * the route handlers embed the Express handlers of `src/routes.ts`.

JavaScript values relevant to the handlers are modelled by the `JValue`
JSON type.  JavaScript truthiness of strings (only the empty string is
falsy) is modelled by `truthyStr`.
-/

namespace Vidiyome

/-- JSON-like values: the model of the JavaScript values flowing through
the Express handlers (request bodies, activity `details`, ...). -/
inductive JValue where
  | null : JValue
  | bool (b : Bool) : JValue
  | num (n : Int) : JValue
  | str (s : String) : JValue
  | arr (xs : List JValue) : JValue
  | obj (fields : List (String × JValue)) : JValue

/-- The double-quote character (written by code to avoid escaping). -/
def quoteChar : Char := Char.ofNat 34

/-- The single-quote character. -/
def aposChar : Char := Char.ofNat 39

/-- Characters rewritten by the sanitizer of `routes.ts` lines 33-38. -/
def bannedChars : List Char := ['<', '>', quoteChar, aposChar, '/']

/-- One global single-character replacement, the model of
`String.prototype.replace(/c/g, r)` used in `routes.ts` lines 34-38. -/
def replaceChar (p : Char) (r : List Char) : List Char → List Char
  | [] => []
  | c :: cs => (if c = p then r else [c]) ++ replaceChar p r cs

/-- Replacement text `&lt;`. -/
def ltRepl : List Char := ['&', 'l', 't', ';']

/-- Replacement text `&gt;`. -/
def gtRepl : List Char := ['&', 'g', 't', ';']

/-- Replacement text `&quot;`. -/
def quotRepl : List Char := ['&', 'q', 'u', 'o', 't', ';']

/-- Replacement text `&#x27;`. -/
def aposRepl : List Char := ['&', '#', 'x', '2', '7', ';']

/-- Replacement text `&#x2F;`. -/
def slashRepl : List Char := ['&', '#', 'x', '2', 'F', ';']

/-- Character-level body of the string sanitizer: the five successive
global replacements of `routes.ts` lines 33-38, in source order. -/
def sanitizeChars (cs : List Char) : List Char :=
  replaceChar '/' slashRepl
    (replaceChar aposChar aposRepl
      (replaceChar quoteChar quotRepl
        (replaceChar '>' gtRepl
          (replaceChar '<' ltRepl cs))))

/-- String sanitization of `routes.ts` lines 32-39. -/
def sanitizeStr (s : String) : String := String.mk (sanitizeChars s.data)

mutual

/-- Embedding of `sanitizeInput` (`routes.ts` lines 25-57): strings are
rewritten, arrays are mapped, object values are sanitized recursively
while object keys are passed through untouched; other primitives are
returned unchanged. -/
def sanitizeInput : JValue → JValue
  | .null => .null
  | .bool b => .bool b
  | .num n => .num n
  | .str s => .str (sanitizeStr s)
  | .arr xs => .arr (sanitizeList xs)
  | .obj fs => .obj (sanitizeFields fs)

/-- Elementwise sanitization of a JSON array (`obj.map(sanitizeInput)`). -/
def sanitizeList : List JValue → List JValue
  | [] => []
  | x :: xs => sanitizeInput x :: sanitizeList xs

/-- Valuewise sanitization of a JSON object
(`result[key] = sanitizeInput(obj[key])`): keys are not rewritten. -/
def sanitizeFields : List (String × JValue) → List (String × JValue)
  | [] => []
  | kv :: fs => (kv.1, sanitizeInput kv.2) :: sanitizeFields fs

end

/-- A string is clean when it contains none of the five raw characters the
sanitizer rewrites. -/
def cleanStr (s : String) : Bool := s.data.all (fun c => !(decide (c ∈ bannedChars)))

mutual

/-- All strings occurring anywhere in a JSON value, object keys included. -/
def jstringsAll : JValue → List String
  | .null => []
  | .bool _ => []
  | .num _ => []
  | .str s => [s]
  | .arr xs => jstringsAllList xs
  | .obj fs => jstringsAllFields fs

/-- All strings of a JSON array, keys of nested objects included. -/
def jstringsAllList : List JValue → List String
  | [] => []
  | x :: xs => jstringsAll x ++ jstringsAllList xs

/-- All strings of a JSON object: each key together with the strings of
its value. -/
def jstringsAllFields : List (String × JValue) → List String
  | [] => []
  | kv :: fs => kv.1 :: (jstringsAll kv.2 ++ jstringsAllFields fs)

end

mutual

/-- String values occurring in a JSON value (string leaves reachable as
array elements or object property values); object keys are excluded. -/
def jstringsVals : JValue → List String
  | .null => []
  | .bool _ => []
  | .num _ => []
  | .str s => [s]
  | .arr xs => jstringsValsList xs
  | .obj fs => jstringsValsFields fs

/-- String values of a JSON array. -/
def jstringsValsList : List JValue → List String
  | [] => []
  | x :: xs => jstringsVals x ++ jstringsValsList xs

/-- String values of a JSON object (keys excluded). -/
def jstringsValsFields : List (String × JValue) → List String
  | [] => []
  | kv :: fs => jstringsVals kv.2 ++ jstringsValsFields fs

end

/-- Environment-style configuration source (`process.env`): a partial map
from key to value.  A variable can be unset (`none`) or set, possibly to
the empty string. -/
def Env : Type := String → Option String

/-- JavaScript truthiness of an optional string (`!!x`, `if (x)`): false
for a missing value and for the empty string, true otherwise. -/
def truthyStr : Option String → Bool
  | none => false
  | some s => !s.data.isEmpty

/-- First-occurrence deduplication of a key list: the model of repeated
`result[platform] = false` assignments building a JavaScript object
(later duplicates neither reorder nor duplicate the key). -/
def dedupKeys (seen : List String) : List String → List String
  | [] => []
  | p :: ps => if p ∈ seen then dedupKeys seen ps
               else p :: dedupKeys (p :: seen) ps

/-- Per-platform configured flag computed by the `platforms` branch of
`POST /api/check-secrets` (`routes.ts` lines 549-567): youtube requires
`YOUTUBE_CLIENT_ID` and `YOUTUBE_CLIENT_SECRET`, tiktok requires
`TIKTOK_CLIENT_KEY` and `TIKTOK_CLIENT_SECRET`, instagram requires only
`INSTAGRAM_ACCESS_TOKEN`, and every other platform id keeps its
initialized `false`. -/
def platformConfiguredFlag (env : Env) (p : String) : Bool :=
  if p = "youtube" then
    truthyStr (env "YOUTUBE_CLIENT_ID") && truthyStr (env "YOUTUBE_CLIENT_SECRET")
  else if p = "tiktok" then
    truthyStr (env "TIKTOK_CLIENT_KEY") && truthyStr (env "TIKTOK_CLIENT_SECRET")
  else if p = "instagram" then
    truthyStr (env "INSTAGRAM_ACCESS_TOKEN")
  else false

/-- Embedding of the `platforms` branch of `POST /api/check-secrets`
(`routes.ts` lines 537-569): an ordered association list from each
requested platform (first occurrence order) to its configured flag. -/
def checkSecretsPlatforms (env : Env) (platforms : List String) : List (String × Bool) :=
  (dedupKeys [] platforms).map (fun p => (p, platformConfiguredFlag env p))

/-- Configuration predicate following the words of the claim and of the
spec invariant: a platform is configured iff its app-level client
identifier and client secret are both present.  The per-platform key
names follow the repository (`utils.ts`): instagram's app-level
credentials are the Facebook app id/secret. -/
def specPlatformConfigured (env : Env) (p : String) : Bool :=
  if p = "youtube" then
    truthyStr (env "YOUTUBE_CLIENT_ID") && truthyStr (env "YOUTUBE_CLIENT_SECRET")
  else if p = "tiktok" then
    truthyStr (env "TIKTOK_CLIENT_KEY") && truthyStr (env "TIKTOK_CLIENT_SECRET")
  else if p = "instagram" then
    truthyStr (env "FACEBOOK_APP_ID") && truthyStr (env "FACEBOOK_APP_SECRET")
  else false

/-- Association lookup on the check-secrets result object. -/
def lookupFlag (p : String) : List (String × Bool) → Option Bool
  | [] => none
  | kv :: rest => if kv.1 = p then some kv.2 else lookupFlag p rest

/-- YouTube entry of `SocialMediaAuthConfig`
(`platform-connect.tsx` lines 537-542). -/
structure YoutubeConfig where
  clientId : String
  clientSecret : String
  refreshToken : Option String
  accessToken : Option String
deriving Repr, DecidableEq

/-- TikTok entry of `SocialMediaAuthConfig`
(`platform-connect.tsx` lines 543-547). -/
structure TiktokConfig where
  clientKey : String
  clientSecret : String
  accessToken : Option String
deriving Repr, DecidableEq

/-- Instagram entry of `SocialMediaAuthConfig`
(`platform-connect.tsx` lines 548-550): only an access token, no
app-level id/secret pair. -/
structure InstagramConfig where
  accessToken : Option String
deriving Repr, DecidableEq

/-- Configuration state of the `SocialMediaService`
(`platform-connect.tsx` lines 536-551, field `config` line 565): each
platform entry is optional and absent until `loadConfig` or
`setAccessToken` creates it. -/
structure SocialMediaAuthConfig where
  youtube : Option YoutubeConfig
  tiktok : Option TiktokConfig
  instagram : Option InstagramConfig
deriving Repr, DecidableEq

/-- Embedding of `SocialMediaService.loadConfig` (`platform-connect.tsx`
lines 575-601), also reached through `reloadConfig` (lines 607-609): a
platform entry is overwritten from the environment only when its guard
holds (youtube and tiktok: id and secret both truthy; instagram: the
access token truthy); otherwise the previous — possibly stale — entry is
kept.  Access tokens of rebuilt entries come from the environment
(`YOUTUBE_ACCESS_TOKEN`, `TIKTOK_ACCESS_TOKEN`, `INSTAGRAM_ACCESS_TOKEN`),
overwriting any token stored earlier. -/
def loadConfig (env : Env) (c : SocialMediaAuthConfig) : SocialMediaAuthConfig :=
  let yEntry : YoutubeConfig :=
    { clientId := (env "YOUTUBE_CLIENT_ID").getD "",
      clientSecret := (env "YOUTUBE_CLIENT_SECRET").getD "",
      refreshToken := env "YOUTUBE_REFRESH_TOKEN",
      accessToken := env "YOUTUBE_ACCESS_TOKEN" }
  let tEntry : TiktokConfig :=
    { clientKey := (env "TIKTOK_CLIENT_KEY").getD "",
      clientSecret := (env "TIKTOK_CLIENT_SECRET").getD "",
      accessToken := env "TIKTOK_ACCESS_TOKEN" }
  let iEntry : InstagramConfig := { accessToken := env "INSTAGRAM_ACCESS_TOKEN" }
  let c1 :=
    if truthyStr (env "YOUTUBE_CLIENT_ID") && truthyStr (env "YOUTUBE_CLIENT_SECRET") then
      { c with youtube := some yEntry }
    else c
  let c2 :=
    if truthyStr (env "TIKTOK_CLIENT_KEY") && truthyStr (env "TIKTOK_CLIENT_SECRET") then
      { c1 with tiktok := some tEntry }
    else c1
  if truthyStr (env "INSTAGRAM_ACCESS_TOKEN") then
    { c2 with instagram := some iEntry }
  else c2

/-- JavaScript `String.prototype.toLowerCase`, used by the service's
`switch (platform.toLowerCase())` dispatches. -/
def jsToLower (s : String) : String := String.mk (s.data.map Char.toLower)

/-- Embedding of `SocialMediaService.isPlatformConfigured`
(`platform-connect.tsx` lines 614-625): youtube and tiktok test their
entry's id and secret, instagram tests only its access token, anything
else is false. -/
def isPlatformConfigured (c : SocialMediaAuthConfig) (platform : String) : Bool :=
  let p := jsToLower platform
  if p = "youtube" then
    truthyStr (c.youtube.map (fun y => y.clientId))
      && truthyStr (c.youtube.map (fun y => y.clientSecret))
  else if p = "tiktok" then
    truthyStr (c.tiktok.map (fun t => t.clientKey))
      && truthyStr (c.tiktok.map (fun t => t.clientSecret))
  else if p = "instagram" then
    truthyStr (c.instagram.bind (fun i => i.accessToken))
  else false

/-- Embedding of `SocialMediaService.setAccessToken`
(`platform-connect.tsx` lines 644-669): youtube and tiktok store the
token only when their config entry exists (returning true), falling
through to false otherwise; instagram creates its entry if absent and
always stores (returning true); unknown platforms return false. -/
def setAccessToken (c : SocialMediaAuthConfig) (platform token : String) :
    Bool × SocialMediaAuthConfig :=
  let p := jsToLower platform
  if p = "youtube" then
    match c.youtube with
    | some y => (true, { c with youtube := some { y with accessToken := some token } })
    | none => (false, c)
  else if p = "tiktok" then
    match c.tiktok with
    | some t => (true, { c with tiktok := some { t with accessToken := some token } })
    | none => (false, c)
  else if p = "instagram" then
    (true, { c with instagram := some { accessToken := some token } })
  else (false, c)

/-- Percent-encoding of the characters that `encodeURIComponent`
rewrites among those occurring in the built URLs (colon, slash, space,
comma); the other characters appearing there (letters, digits, dot,
dash) are passed through, as `encodeURIComponent` does. -/
def urlEncodeChar (c : Char) : List Char :=
  if c = ':' then ['%', '3', 'A']
  else if c = '/' then ['%', '2', 'F']
  else if c = ' ' then ['%', '2', '0']
  else if c = ',' then ['%', '2', 'C']
  else [c]

/-- Model of `encodeURIComponent` for the redirect URIs and scope
strings. -/
def urlEncode (s : String) : String :=
  String.mk (s.data.flatMap urlEncodeChar)

/-- Substring test on character lists, the model of
`String.prototype.includes`. -/
def listHasInfix (sub : List Char) : List Char → Bool
  | [] => sub.isEmpty
  | c :: cs => sub.isPrefixOf (c :: cs) || listHasInfix sub cs

/-- JavaScript `s.includes(sub)`. -/
def jsIncludes (s sub : String) : Bool := listHasInfix sub.data s.data

/-- JavaScript `baseUrl || 'localhost:5000'` fallback used both by the
route (`routes.ts` line 310) and inside the builder
(`platform-connect.tsx` lines 690, 705, 721). -/
def hostOrDefault (h : Option String) : String :=
  if truthyStr h then h.getD "" else "localhost:5000"

/-- Redirect URI `${protocol}://${host}/api/auth/${platform}/callback`
with `http` exactly when the host contains `localhost`
(`platform-connect.tsx` lines 691-694 and analogues). -/
def redirectUriFor (host platform : String) : String :=
  (if jsIncludes host "localhost" then "http" else "https")
    ++ "://" ++ host ++ "/api/auth/" ++ platform ++ "/callback"

/-- Embedding of `SocialMediaService.getAuthorizationUrl`
(`platform-connect.tsx` lines 676-737): youtube yields null iff its
entry's `clientId` is falsy (no secret check), tiktok iff its entry's
`clientKey` is falsy, instagram iff `process.env.FACEBOOK_APP_ID` is
falsy (the config is not consulted), and unknown platforms yield null;
otherwise the platform's OAuth URL is built against
`baseUrl || 'localhost:5000'`. -/
def getAuthorizationUrl (env : Env) (c : SocialMediaAuthConfig)
    (platform : String) (baseUrl : Option String) : Option String :=
  let p := jsToLower platform
  if p = "youtube" then
    if !truthyStr (c.youtube.map (fun y => y.clientId)) then none
    else
      let thisHost := hostOrDefault baseUrl
      some ("https://accounts.google.com/o/oauth2/auth?client_id="
        ++ ((c.youtube.map (fun y => y.clientId)).getD "")
        ++ "&redirect_uri=" ++ urlEncode (redirectUriFor thisHost "youtube")
        ++ "&scope=" ++ urlEncode ("https://www.googleapis.com/auth/youtube "
            ++ "https://www.googleapis.com/auth/youtube.upload "
            ++ "https://www.googleapis.com/auth/youtube.readonly")
        ++ "&response_type=code&access_type=offline&prompt=consent&include_granted_scopes=true")
  else if p = "tiktok" then
    if !truthyStr (c.tiktok.map (fun t => t.clientKey)) then none
    else
      let thisHost := hostOrDefault baseUrl
      some ("https://www.tiktok.com/auth/authorize/?client_key="
        ++ ((c.tiktok.map (fun t => t.clientKey)).getD "")
        ++ "&scope=user.info.basic,video.upload&response_type=code&redirect_uri="
        ++ urlEncode (redirectUriFor thisHost "tiktok"))
  else if p = "instagram" then
    if !truthyStr (env "FACEBOOK_APP_ID") then none
    else
      let thisHost := hostOrDefault baseUrl
      some ("https://www.facebook.com/v16.0/dialog/oauth?client_id="
        ++ ((env "FACEBOOK_APP_ID").getD "")
        ++ "&redirect_uri=" ++ urlEncode (redirectUriFor thisHost "instagram")
        ++ "&scope=" ++ urlEncode "instagram_content_publish,pages_read_engagement")
  else none

/-- Video record of `schema.ts` (table `videos`). -/
structure Video where
  id : Int
  title : String
  prompt : String
  style : String
  duration : String
  aspectRatio : String
  platforms : List String
  status : String
  thumbnailUrl : Option String
  videoUrl : Option String
  createdAt : Int
  userId : Int

/-- Partial video update (`Partial<InsertVideo>` as consumed by
`MemStorage.updateVideo`): a field is `none` when the caller did not
supply it; `thumbnailUrl`/`videoUrl` can be supplied as an explicit
null. -/
structure VideoUpdate where
  title : Option String
  prompt : Option String
  style : Option String
  duration : Option String
  aspectRatio : Option String
  platforms : Option (List String)
  status : Option String
  thumbnailUrl : Option (Option String)
  videoUrl : Option (Option String)

/-- Update carrying only a `status` field, as built by the publish
handler (`routes.ts` line 465). -/
def statusOnlyUpdate (s : String) : VideoUpdate :=
  { title := none, prompt := none, style := none, duration := none,
    aspectRatio := none, platforms := none, status := some s,
    thumbnailUrl := none, videoUrl := none }

/-- Spread-merge `{ ...video, ...updateData }` of
`MemStorage.updateVideo` (`storage.ts` line 305). -/
def applyVideoUpdate (v : Video) (u : VideoUpdate) : Video :=
  { id := v.id,
    title := u.title.getD v.title,
    prompt := u.prompt.getD v.prompt,
    style := u.style.getD v.style,
    duration := u.duration.getD v.duration,
    aspectRatio := u.aspectRatio.getD v.aspectRatio,
    platforms := u.platforms.getD v.platforms,
    status := u.status.getD v.status,
    thumbnailUrl := u.thumbnailUrl.getD v.thumbnailUrl,
    videoUrl := u.videoUrl.getD v.videoUrl,
    createdAt := v.createdAt,
    userId := v.userId }

/-- Activity record of `schema.ts` (table `activities`). -/
structure Activity where
  id : Nat
  videoId : Option Int
  userId : Int
  action : String
  details : Option JValue
  createdAt : Int

/-- Insert shape for activities (`InsertActivity`): no id, no
timestamp. -/
structure InsertActivity where
  userId : Int
  videoId : Option Int
  action : String
  details : Option JValue

/-- JavaScript `x || null` on an optional number: `0` is falsy and
collapses to null (`storage.ts` line 393). -/
def jsOrNullInt : Option Int → Option Int
  | some 0 => none
  | v => v

/-- In-memory storage state: the `videos` and `activities` maps of
`MemStorage` in insertion order, the activity id counter, and the
current wall-clock time used to stamp `createdAt` (`new Date()`). -/
structure StorageState where
  videos : List (Int × Video)
  activities : List Activity
  activityIdCounter : Nat
  clock : Int

/-- Association-list lookup: the model of `Map.prototype.get`. -/
def lookupAssoc (k : Int) : List (Int × Video) → Option Video
  | [] => none
  | kv :: rest => if kv.1 = k then some kv.2 else lookupAssoc k rest

/-- Association-list update: the model of `Map.prototype.set`, which
overwrites an existing key in place (keeping insertion order) and
appends a fresh key at the end. -/
def setAssoc (k : Int) (v : Video) : List (Int × Video) → List (Int × Video)
  | [] => [(k, v)]
  | kv :: rest => if kv.1 = k then (k, v) :: rest else kv :: setAssoc k v rest

/-- Embedding of `MemStorage.getVideo` (`storage.ts` line 265). -/
def getVideo (st : StorageState) (id : Int) : Option Video :=
  lookupAssoc id st.videos

/-- Embedding of `MemStorage.createActivity` (`storage.ts` lines
385-398): assigns the next id, stamps the current time, defaults
`videoId` and `details` with `|| null`, and inserts the record. -/
def createActivity (st : StorageState) (ia : InsertActivity) : Activity × StorageState :=
  let act : Activity :=
    { id := st.activityIdCounter, videoId := jsOrNullInt ia.videoId,
      userId := ia.userId, action := ia.action, details := ia.details,
      createdAt := st.clock }
  (act, { st with activities := st.activities ++ [act],
                  activityIdCounter := st.activityIdCounter + 1 })

/-- Embedding of `MemStorage.updateVideo` (`storage.ts` lines 301-317):
merge the partial update over the stored record, store it back, and
record an `update_video` activity. -/
def updateVideo (st : StorageState) (id : Int) (u : VideoUpdate) :
    Option Video × StorageState :=
  match lookupAssoc id st.videos with
  | none => (none, st)
  | some v =>
    let v2 := applyVideoUpdate v u
    let st1 := { st with videos := setAssoc id v2 st.videos }
    let st2 := (createActivity st1
      { userId := v.userId, videoId := some id, action := "update_video",
        details := some (.obj [("title", .str v.title)]) }).2
    (some v2, st2)

/-- Comparator of `MemStorage.getActivitiesByUserId` (`storage.ts` line
380): `a` may precede `b` when `b.createdAt - a.createdAt ≤ 0`, giving a
stable descending sort by creation time. -/
def actNewerEq (a b : Activity) : Prop := b.createdAt ≤ a.createdAt

instance : DecidableRel actNewerEq :=
  fun a b => inferInstanceAs (Decidable (b.createdAt ≤ a.createdAt))

instance : IsTotal Activity actNewerEq :=
  ⟨fun a b => (le_total b.createdAt a.createdAt).imp id id⟩

instance : IsTrans Activity actNewerEq :=
  ⟨fun _ _ _ hab hbc => le_trans hbc hab⟩

/-- JavaScript truthiness of the optional numeric `limit` argument
(`limit ? ... : ...`): missing and `0` are falsy. -/
def jsTruthyIntOpt : Option Int → Bool
  | none => false
  | some n => n != 0

/-- JavaScript `Array.prototype.slice(0, k)`: for nonnegative `k` the
first `k` elements, for negative `k` all but the last `-k`. -/
def jsSlice0 (k : Int) (xs : List Activity) : List Activity :=
  if 0 ≤ k then xs.take k.toNat
  else xs.take ((xs.length : Int) + k).toNat

/-- Sorted view produced inside `MemStorage.getActivitiesByUserId`: the
matching activities, newest first. -/
def sortedActivitiesFor (st : StorageState) (userId : Int) : List Activity :=
  List.insertionSort actNewerEq (st.activities.filter (fun a => a.userId == userId))

/-- Embedding of `MemStorage.getActivitiesByUserId` (`storage.ts` lines
377-383): filter the stored activities by user, sort newest first
(stable, as JavaScript `sort`), and apply `slice(0, limit)` only when
`limit` is truthy.  The state is returned unchanged. -/
def getActivitiesByUserId (st : StorageState) (userId : Int) (limit : Option Int) :
    List Activity × StorageState :=
  (if jsTruthyIntOpt limit then jsSlice0 (limit.getD 0) (sortedActivitiesFor st userId)
   else sortedActivitiesFor st userId, st)

/-- Per-platform publish outcome consumed by the publish route
(`routes.ts` lines 461-479 use `.success` and `.platform`). -/
structure PublishResult where
  platform : String
  success : Bool
  url : Option String
  message : String

/-- HTTP responses produced by the embedded handlers. -/
inductive Response where
  | jsonMsg (status : Nat) (message : String)
  | jsonResults (status : Nat) (results : List PublishResult)
  | jsonErr (status : Nat) (error : String)
  | jsonAuthUrl (authUrl : String)
  | htmlPage (status : Nat) (title : String)

/-- HTTP status of a response (`res.json` without an explicit status is
200). -/
def statusOf : Response → Nat
  | .jsonMsg s _ => s
  | .jsonResults s _ => s
  | .jsonErr s _ => s
  | .jsonAuthUrl _ => 200
  | .htmlPage s _ => s

/-- Lookup of an object property, first occurrence. -/
def jlookup (k : String) : List (String × JValue) → Option JValue
  | [] => none
  | kv :: rest => if kv.1 = k then some kv.2 else jlookup k rest

/-- Zod `z.array(z.string())`: succeeds iff every element is a string. -/
def allStrings : List JValue → Option (List String)
  | [] => some []
  | .str s :: rest => (allStrings rest).map (fun ss => s :: ss)
  | _ :: _ => none

/-- Embedding of the `publishSchema` validation of `routes.ts` lines
427-429: the body must be an object whose `platforms` property is an
array of strings with at least one element. -/
def parsePublishBody (v : JValue) : Except String (List String) :=
  match v with
  | .obj fs =>
    match jlookup "platforms" fs with
    | some (.arr xs) =>
      match allStrings xs with
      | some ss =>
        if ss.isEmpty then .error "At least one platform must be selected"
        else .ok ss
      | none => .error "Invalid publish request"
    | _ => .error "Invalid publish request"
  | _ => .error "Invalid publish request"

/-- A double quote as a string, used in activity messages. -/
def dq : String := String.mk [quoteChar]

/-- Publish fan-out tail of `POST /api/videos/:id/publish` (`routes.ts`
lines 449-487), entered once the body validated against `publishSchema`
and the video was found with a media URL: record the
`video_publish_started` activity, call the publishing service, and if
at least one per-platform result succeeded mark the video published and
record a `video_published` activity listing the succeeding platforms;
always answer 200 with the result list. -/
def publishCore (pub : Video → List String → List PublishResult)
    (st : StorageState) (id : Int) (video : Video) (platforms : List String) :
    Response × StorageState :=
  let st1 := (createActivity st
    { userId := video.userId, videoId := none,
      action := "video_publish_started",
      details := some (.obj [("videoId", .num video.id),
        ("message", .str ("Started publishing " ++ dq ++ video.title ++ dq
          ++ " to " ++ String.intercalate ", " platforms))]) }).2
  let results := pub video platforms
  if results.any (fun r => r.success) then
    let st2 := (updateVideo st1 id (statusOnlyUpdate "published")).2
    let succ := (results.filter (fun r => r.success)).map (fun r => r.platform)
    let st3 := (createActivity st2
      { userId := video.userId, videoId := none, action := "video_published",
        details := some (.obj [("videoId", .num video.id),
          ("platforms", .arr (succ.map .str)),
          ("message", .str ("Published " ++ dq ++ video.title ++ dq
            ++ " to " ++ String.intercalate ", " succ))]) }).2
    (.jsonResults 200 results, st3)
  else
    (.jsonResults 200 results, st1)

/-- Embedding of `POST /api/videos/:id/publish` (`routes.ts` lines
419-487), from the point where the id parameter has been parsed.  The
publishing service call (`socialMediaService.publishVideo`, not among
the available sources) is the explicit parameter `pub`; it returns its
per-platform result list, modelling the non-throwing case.  Steps, in
source order: validate the sanitized body against `publishSchema`, look
the video up (404 when absent), reject a video without a media URL
(400), then run `publishCore`. -/
def publishHandler (pub : Video → List String → List PublishResult)
    (st : StorageState) (id : Int) (body : JValue) : Response × StorageState :=
  match parsePublishBody (sanitizeInput body) with
  | .error msg => (.jsonMsg 400 msg, st)
  | .ok platforms =>
    match getVideo st id with
    | none => (.jsonMsg 404 "Video not found", st)
    | some video =>
      match video.videoUrl with
      | none =>
        (.jsonMsg 400 "Video has not been generated yet. Generate the video first.", st)
      | some _ => publishCore pub st id video platforms

/-- Platforms recorded in the `details` of a publish activity. -/
def detailsPlatforms (a : Activity) : Option (List String) :=
  match a.details with
  | some (.obj fs) =>
    match jlookup "platforms" fs with
    | some (.arr xs) => allStrings xs
    | _ => none
  | _ => none

/-- Embedding of `GET /api/auth/youtube/callback` (`routes.ts` lines
328-416).  `code` and `error` are the query parameters (a parameter can
be absent, or present with any string value; `if (error)` and
`if (!code)` are JavaScript truthiness tests).  When a truthy code
survives both guards the handler requires `YOUTUBE_CLIENT_ID` and
`YOUTUBE_CLIENT_SECRET` in the environment (otherwise the thrown error
is caught and answered with a 500 page), then performs the simulated
token exchange by storing `simulated_access_token` through the
service's `setAccessToken` and answers with a 200 page. -/
def youtubeCallback (env : Env) (cfg : SocialMediaAuthConfig)
    (code errorParam : Option String) : Response × SocialMediaAuthConfig :=
  if truthyStr errorParam then
    (.htmlPage 400 "YouTube Connection Failed", cfg)
  else if !truthyStr code then
    (.htmlPage 400 "Invalid Request", cfg)
  else if !truthyStr (env "YOUTUBE_CLIENT_ID")
       || !truthyStr (env "YOUTUBE_CLIENT_SECRET") then
    (.htmlPage 500 "Connection Error", cfg)
  else
    (.htmlPage 200 "YouTube Connected",
      (setAccessToken cfg "youtube" "simulated_access_token").2)

/-- Embedding of `GET /api/social-media/auth-url/:platform` (`routes.ts`
lines 303-325): sanitize the platform parameter, call the service's
`reloadConfig` (which runs `loadConfig`), default the host header with
`|| 'localhost:5000'`, build the authorization URL, and answer 400 when
the builder yields nothing (`if (!authUrl)`), otherwise `{ authUrl }`. -/
def authUrlHandler (env : Env) (cfg : SocialMediaAuthConfig)
    (platformParam : String) (hostHdr : Option String) :
    Response × SocialMediaAuthConfig :=
  let platform := sanitizeStr platformParam
  let cfg2 := loadConfig env cfg
  let host := hostOrDefault hostHdr
  let authUrl := getAuthorizationUrl env cfg2 platform (some host)
  if !truthyStr authUrl then
    (.jsonErr 400 ("Platform " ++ platform ++ " is not configured or not supported"),
      cfg2)
  else
    (.jsonAuthUrl (authUrl.getD ""), cfg2)

/-- Environment of the C5 counterexample: instagram's app-level client
identifier and secret are present, but no Instagram access token. -/
def envC5 : Env := fun k =>
  if k = "FACEBOOK_APP_ID" then some "fb-app-id"
  else if k = "FACEBOOK_APP_SECRET" then some "fb-app-secret"
  else none

/-- Environment used by the C7 and C8 witnesses: youtube client id and
secret configured. -/
def envYt : Env := fun k =>
  if k = "YOUTUBE_CLIENT_ID" then some "yt-client-id"
  else if k = "YOUTUBE_CLIENT_SECRET" then some "yt-client-secret"
  else none

/-- Empty service configuration (fresh `SocialMediaService` before any
entry is loaded). -/
def cfgEmpty : SocialMediaAuthConfig := ⟨none, none, none⟩

/-- Service configuration used by witnesses: youtube entry present, no
token yet. -/
def cfgYt : SocialMediaAuthConfig :=
  ⟨some ⟨"yt-client-id", "yt-client-secret", none, none⟩, none, none⟩

/-- Authorization URL computed in the C8 witness. -/
def ytAuthUrlEx : String :=
  (getAuthorizationUrl envYt (loadConfig envYt cfgEmpty) "youtube"
    (some "app.example.com")).getD ""

/-- Concrete request body `{ platforms: ["youtube"] }` used by
witnesses. -/
def bodyEx : JValue := .obj [("platforms", .arr [.str "youtube"])]

/-- Concrete request body `{ platforms: [] }` used by the C4 witness. -/
def bodyEmptyEx : JValue := .obj [("platforms", .arr [])]

/-- Concrete generated video used by witnesses. -/
def vid1 : Video :=
  ⟨1, "Demo video", "a prompt long enough", "professional", "30 seconds",
   "16:9", ["youtube"], "draft", none, some "/videos/demo.mp4", 10, 1⟩

/-- Storage fixture with no videos. -/
def stEmpty : StorageState := ⟨[], [], 1, 100⟩

/-- Storage fixture holding `vid1` under id 1. -/
def stOne : StorageState := ⟨[(1, vid1)], [], 1, 100⟩

/-- Publishing service stub whose every per-platform result fails. -/
def pubFail : Video → List String → List PublishResult :=
  fun _ ps => ps.map (fun p =>
    { platform := p, success := false, url := none,
      message := "Failed to publish" })

/-- Publishing service stub whose every per-platform result succeeds. -/
def pubOk : Video → List String → List PublishResult :=
  fun _ ps => ps.map (fun p =>
    { platform := p, success := true,
      url := some ("https://media.example/" ++ p), message := "published" })

/-- Concrete video without a generated media URL. -/
def vidNoUrl : Video :=
  ⟨2, "Draft video", "another prompt text", "minimal", "15 seconds",
   "9:16", ["tiktok"], "draft", none, none, 20, 1⟩

/-- Storage fixture holding `vidNoUrl` under id 2. -/
def stNoUrl : StorageState := ⟨[(2, vidNoUrl)], [], 1, 100⟩

/-- Activity fixtures for the C10 theorems. -/
def actA : Activity := ⟨1, none, 1, "create_video", none, 50⟩

/-- Second activity of user 1, newer than `actA`. -/
def actB : Activity := ⟨2, none, 1, "update_video", none, 60⟩

/-- Activity of a different user. -/
def actC : Activity := ⟨3, none, 2, "create_video", none, 70⟩

/-- Storage fixture holding three activities. -/
def stActs : StorageState := ⟨[], [actA, actB, actC], 4, 100⟩

/-! ## Theorems -/

theorem not_mem_replaceChar_self (p : Char) (r : List Char) (hp : p ∉ r) :
    ∀ cs : List Char, p ∉ replaceChar p r cs := by
  intro cs
  induction cs with
  | nil => simp [replaceChar]
  | cons c cs ih =>
    simp only [replaceChar, List.mem_append]
    rintro (h | h)
    · by_cases hc : c = p
      · simp [hc] at h; exact hp h
      · simp [hc] at h; exact hc (h ▸ rfl)
    · exact ih h

theorem not_mem_replaceChar_of_not_mem (p c : Char) (r : List Char)
    (hcr : c ∉ r) : ∀ cs : List Char, c ∉ cs → c ∉ replaceChar p r cs := by
  intro cs
  induction cs with
  | nil => simp [replaceChar]
  | cons d cs ih =>
    intro hcs
    simp only [List.mem_cons, not_or] at hcs
    simp only [replaceChar, List.mem_append]
    rintro (h | h)
    · by_cases hd : d = p
      · simp [hd] at h; exact hcr h
      · simp [hd] at h; exact hcs.1 (h ▸ rfl)
    · exact ih hcs.2 h

theorem replaceChar_of_not_mem (p : Char) (r : List Char) :
    ∀ cs : List Char, p ∉ cs → replaceChar p r cs = cs := by
  intro cs
  induction cs with
  | nil => intro _; rfl
  | cons c cs ih =>
    intro h
    simp only [List.mem_cons, not_or] at h
    have hc : ¬ c = p := fun hcp => h.1 hcp.symm
    simp [replaceChar, hc, ih h.2]

theorem lt_not_mem_sanitizeChars (cs : List Char) : '<' ∉ sanitizeChars cs := by
  unfold sanitizeChars
  apply not_mem_replaceChar_of_not_mem _ _ _ (by decide)
  apply not_mem_replaceChar_of_not_mem _ _ _ (by decide)
  apply not_mem_replaceChar_of_not_mem _ _ _ (by decide)
  apply not_mem_replaceChar_of_not_mem _ _ _ (by decide)
  exact not_mem_replaceChar_self _ _ (by decide) cs

theorem gt_not_mem_sanitizeChars (cs : List Char) : '>' ∉ sanitizeChars cs := by
  unfold sanitizeChars
  apply not_mem_replaceChar_of_not_mem _ _ _ (by decide)
  apply not_mem_replaceChar_of_not_mem _ _ _ (by decide)
  apply not_mem_replaceChar_of_not_mem _ _ _ (by decide)
  exact not_mem_replaceChar_self _ _ (by decide) _

theorem quote_not_mem_sanitizeChars (cs : List Char) :
    quoteChar ∉ sanitizeChars cs := by
  unfold sanitizeChars
  apply not_mem_replaceChar_of_not_mem _ _ _ (by decide)
  apply not_mem_replaceChar_of_not_mem _ _ _ (by decide)
  exact not_mem_replaceChar_self _ _ (by decide) _

theorem apos_not_mem_sanitizeChars (cs : List Char) :
    aposChar ∉ sanitizeChars cs := by
  unfold sanitizeChars
  apply not_mem_replaceChar_of_not_mem _ _ _ (by decide)
  exact not_mem_replaceChar_self _ _ (by decide) _

theorem slash_not_mem_sanitizeChars (cs : List Char) : '/' ∉ sanitizeChars cs := by
  unfold sanitizeChars
  exact not_mem_replaceChar_self _ _ (by decide) _

theorem banned_not_mem_sanitizeChars (cs : List Char) (c : Char)
    (hc : c ∈ bannedChars) : c ∉ sanitizeChars cs := by
  simp only [bannedChars, List.mem_cons, List.not_mem_nil, or_false] at hc
  rcases hc with h | h | h | h | h
  · exact h ▸ lt_not_mem_sanitizeChars cs
  · exact h ▸ gt_not_mem_sanitizeChars cs
  · exact h ▸ quote_not_mem_sanitizeChars cs
  · exact h ▸ apos_not_mem_sanitizeChars cs
  · exact h ▸ slash_not_mem_sanitizeChars cs

theorem sanitizeChars_idem (cs : List Char) :
    sanitizeChars (sanitizeChars cs) = sanitizeChars cs := by
  rw [show sanitizeChars (sanitizeChars cs)
        = replaceChar '/' slashRepl
            (replaceChar aposChar aposRepl
              (replaceChar quoteChar quotRepl
                (replaceChar '>' gtRepl
                  (replaceChar '<' ltRepl (sanitizeChars cs))))) from rfl]
  rw [replaceChar_of_not_mem _ _ _
        (banned_not_mem_sanitizeChars cs '<' (by decide)),
      replaceChar_of_not_mem _ _ _
        (banned_not_mem_sanitizeChars cs '>' (by decide)),
      replaceChar_of_not_mem _ _ _
        (banned_not_mem_sanitizeChars cs quoteChar (by decide)),
      replaceChar_of_not_mem _ _ _
        (banned_not_mem_sanitizeChars cs aposChar (by decide)),
      replaceChar_of_not_mem _ _ _
        (banned_not_mem_sanitizeChars cs '/' (by decide))]

theorem sanitizeStr_idem (s : String) :
    sanitizeStr (sanitizeStr s) = sanitizeStr s := by
  unfold sanitizeStr
  rw [show (String.mk (sanitizeChars s.data)).data = sanitizeChars s.data from rfl,
      sanitizeChars_idem]

theorem cleanStr_sanitizeStr (s : String) : cleanStr (sanitizeStr s) = true := by
  unfold cleanStr sanitizeStr
  rw [List.all_eq_true]
  intro c hc
  rw [show (String.mk (sanitizeChars s.data)).data = sanitizeChars s.data from rfl]
    at hc
  simp only [Bool.not_eq_true', decide_eq_false_iff_not]
  exact fun h => banned_not_mem_sanitizeChars s.data c h hc

mutual

theorem sanitizeInput_idem :
    (x : JValue) → sanitizeInput (sanitizeInput x) = sanitizeInput x
  | .null => rfl
  | .bool _ => rfl
  | .num _ => rfl
  | .str s => by simp [sanitizeInput, sanitizeStr_idem]
  | .arr xs => by simp [sanitizeInput, sanitizeList_idem xs]
  | .obj fs => by simp [sanitizeInput, sanitizeFields_idem fs]

theorem sanitizeList_idem :
    (xs : List JValue) → sanitizeList (sanitizeList xs) = sanitizeList xs
  | [] => rfl
  | x :: xs => by
    simp [sanitizeList, sanitizeInput_idem x, sanitizeList_idem xs]

theorem sanitizeFields_idem :
    (fs : List (String × JValue)) → sanitizeFields (sanitizeFields fs) = sanitizeFields fs
  | [] => rfl
  | kv :: fs => by
    simp [sanitizeFields, sanitizeInput_idem kv.2, sanitizeFields_idem fs]

end

mutual

theorem clean_jstringsVals :
    (x : JValue) → ∀ s ∈ jstringsVals (sanitizeInput x), cleanStr s = true
  | .null => by simp [sanitizeInput, jstringsVals]
  | .bool _ => by simp [sanitizeInput, jstringsVals]
  | .num _ => by simp [sanitizeInput, jstringsVals]
  | .str t => by
    intro s hs
    simp only [sanitizeInput, jstringsVals, List.mem_singleton] at hs
    exact hs ▸ cleanStr_sanitizeStr t
  | .arr xs => by
    intro s hs
    simp only [sanitizeInput, jstringsVals] at hs
    exact clean_jstringsValsList xs s hs
  | .obj fs => by
    intro s hs
    simp only [sanitizeInput, jstringsVals] at hs
    exact clean_jstringsValsFields fs s hs

theorem clean_jstringsValsList :
    (xs : List JValue) → ∀ s ∈ jstringsValsList (sanitizeList xs), cleanStr s = true
  | [] => by simp [sanitizeList, jstringsValsList]
  | x :: xs => by
    intro s hs
    simp only [sanitizeList, jstringsValsList, List.mem_append] at hs
    cases hs with
    | inl h => exact clean_jstringsVals x s h
    | inr h => exact clean_jstringsValsList xs s h

theorem clean_jstringsValsFields :
    (fs : List (String × JValue)) →
      ∀ s ∈ jstringsValsFields (sanitizeFields fs), cleanStr s = true
  | [] => by simp [sanitizeFields, jstringsValsFields]
  | kv :: fs => by
    intro s hs
    simp only [sanitizeFields, jstringsValsFields, List.mem_append] at hs
    cases hs with
    | inl h => exact clean_jstringsVals kv.2 s h
    | inr h => exact clean_jstringsValsFields fs s h

end

theorem lookupFlag_map_self (f : String → Bool) (p : String) :
    ∀ l : List String,
      lookupFlag p (l.map (fun x => (x, f x)))
        = if p ∈ l then some (f p) else none := by
  intro l
  induction l with
  | nil => rfl
  | cons x l ih =>
    by_cases hx : x = p
    · subst hx
      simp [lookupFlag]
    · have hpx : ¬ p = x := fun h => hx h.symm
      simp [lookupFlag, hx, hpx, ih]

theorem mem_dedupKeys (p : String) :
    ∀ (ps seen : List String), p ∈ dedupKeys seen ps ↔ (p ∈ ps ∧ p ∉ seen) := by
  intro ps
  induction ps with
  | nil => intro seen; simp [dedupKeys]
  | cons hd tl ih =>
    intro seen
    by_cases hh : hd ∈ seen
    · rw [show dedupKeys seen (hd :: tl) = dedupKeys seen tl from by
        simp [dedupKeys, hh]]
      rw [ih seen]
      constructor
      · rintro ⟨h1, h2⟩; exact ⟨List.mem_cons_of_mem _ h1, h2⟩
      · rintro ⟨h1, h2⟩
        rcases List.mem_cons.mp h1 with h | h
        · exact absurd (h ▸ hh) h2
        · exact ⟨h, h2⟩
    · rw [show dedupKeys seen (hd :: tl) = hd :: dedupKeys (hd :: seen) tl from by
        simp [dedupKeys, hh]]
      by_cases hp : p = hd
      · subst hp
        simp [hh]
      · simp only [List.mem_cons, hp, false_or]
        rw [ih (hd :: seen)]
        simp [hp]

/-- Characterization of the check-secrets result: each requested
platform appears with its flag, nothing else appears. -/
theorem lookupFlag_checkSecrets (env : Env) (ps : List String) (p : String) :
    lookupFlag p (checkSecretsPlatforms env ps)
      = if p ∈ ps then some (platformConfiguredFlag env p) else none := by
  unfold checkSecretsPlatforms
  rw [lookupFlag_map_self]
  by_cases hp : p ∈ ps
  · rw [if_pos ((mem_dedupKeys p ps []).mpr ⟨hp, by simp⟩), if_pos hp]
  · rw [if_neg (fun hmem => hp ((mem_dedupKeys p ps []).mp hmem).1), if_neg hp]

/-- C5 (counterexample): with instagram's app-level client identifier
and client secret both present in the configuration source but no
`INSTAGRAM_ACCESS_TOKEN`, the claim predicts `configured = true` for
instagram, yet the check-secrets handler reports `false` — it tests
only the access token for instagram. -/
theorem C5_counterexample :
    specPlatformConfigured envC5 "instagram" = true ∧
      checkSecretsPlatforms envC5 ["instagram"] = [("instagram", false)] := by
  constructor
  · rfl
  · rfl

/-- C5 (amended): the configuration check maps each requested platform
(first occurrence order, no duplicates, every unrequested platform
absent) to its flag: youtube is configured iff `YOUTUBE_CLIENT_ID` and
`YOUTUBE_CLIENT_SECRET` are both present, tiktok iff
`TIKTOK_CLIENT_KEY` and `TIKTOK_CLIENT_SECRET` are both present,
instagram iff `INSTAGRAM_ACCESS_TOKEN` is present (not its app-level
id+secret pair), and every platform outside this set reports false; the
check is total (never throws). -/
theorem C5_checkSecrets_flags (env : Env) (ps : List String) (p : String) :
    lookupFlag p (checkSecretsPlatforms env ps)
      = if p ∈ ps
        then some
          (if p = "youtube" then
            truthyStr (env "YOUTUBE_CLIENT_ID") && truthyStr (env "YOUTUBE_CLIENT_SECRET")
          else if p = "tiktok" then
            truthyStr (env "TIKTOK_CLIENT_KEY") && truthyStr (env "TIKTOK_CLIENT_SECRET")
          else if p = "instagram" then
            truthyStr (env "INSTAGRAM_ACCESS_TOKEN")
          else false)
        else none :=
  lookupFlag_checkSecrets env ps p

/-- C6: for every OAuth callback invocation that does not carry a usable
authorization code — the error parameter is present (truthy, i.e.
present and non-empty, as tested by `if (error)`), or both code and
error are absent (falsy) — the handler returns a terminal failure
response (status 400) and never calls `setAccessToken`: the service
configuration is returned exactly as it was. -/
theorem C6_callback_no_usable_code (env : Env) (cfg : SocialMediaAuthConfig)
    (code errorParam : Option String)
    (h : truthyStr errorParam = true ∨
         (truthyStr code = false ∧ truthyStr errorParam = false)) :
    (youtubeCallback env cfg code errorParam).2 = cfg ∧
      statusOf (youtubeCallback env cfg code errorParam).1 = 400 := by
  unfold youtubeCallback
  rcases h with h | ⟨hc, he⟩
  · rw [if_pos h]
    exact ⟨rfl, rfl⟩
  · rw [if_neg (by simp [he]), if_pos (by simp [hc])]
    exact ⟨rfl, rfl⟩

/-- C6 witness: callback with `error=access_denied` and no code leaves a
concrete service configuration untouched and answers 400. -/
theorem C6_callback_witness :
    (youtubeCallback (fun _ => none) ⟨none, none, none⟩
        none (some "access_denied")).2 = ⟨none, none, none⟩ ∧
    statusOf (youtubeCallback (fun _ => none) ⟨none, none, none⟩
        none (some "access_denied")).1 = 400 :=
  C6_callback_no_usable_code (fun _ => none) _ none (some "access_denied")
    (Or.inl rfl)

theorem setAccessToken_youtube_entry (cfg : SocialMediaAuthConfig)
    (y : YoutubeConfig) (tok : String) (h : cfg.youtube = some y) :
    ((setAccessToken cfg "youtube" tok).2).youtube
      = some { y with accessToken := some tok } := by
  unfold setAccessToken
  dsimp only
  rw [if_pos (show jsToLower "youtube" = "youtube" from rfl)]
  rw [h]

/-- C7: for every OAuth callback invocation carrying an authorization
code (truthy `code`, and no truthy `error` parameter — the case the
callback's state machine reaches after the error guard, since code and
error are never both meaningfully present), the handler first verifies
the platform's client id and client secret in the configuration source:
when either is missing, it answers with a terminal failure page (the
thrown error is caught and surfaced as status 500) and the service
configuration is left exactly as it was; when both are present, it
performs the simulated token exchange, stores the resulting token
through the service's `setAccessToken` for youtube, and answers with a
success page (status 200) — in particular, whenever the service holds a
youtube config entry, that entry's access token afterwards is the
exchanged token. -/
theorem C7_callback_with_code (env : Env) (cfg : SocialMediaAuthConfig)
    (code errorParam : Option String)
    (hcode : truthyStr code = true) (herr : truthyStr errorParam = false) :
    ((truthyStr (env "YOUTUBE_CLIENT_ID") = false ∨
        truthyStr (env "YOUTUBE_CLIENT_SECRET") = false) →
      youtubeCallback env cfg code errorParam
        = (.htmlPage 500 "Connection Error", cfg)) ∧
    (truthyStr (env "YOUTUBE_CLIENT_ID") = true →
      truthyStr (env "YOUTUBE_CLIENT_SECRET") = true →
      youtubeCallback env cfg code errorParam
          = (.htmlPage 200 "YouTube Connected",
             (setAccessToken cfg "youtube" "simulated_access_token").2) ∧
        (∀ y, cfg.youtube = some y →
          ((youtubeCallback env cfg code errorParam).2).youtube
            = some { y with accessToken := some "simulated_access_token" })) := by
  constructor
  · intro hmiss
    unfold youtubeCallback
    rw [if_neg (by simp [herr]), if_neg (by simp [hcode]),
        if_pos (by rcases hmiss with h | h <;> simp [h])]
  · intro hid hsec
    have hmain : youtubeCallback env cfg code errorParam
        = (.htmlPage 200 "YouTube Connected",
           (setAccessToken cfg "youtube" "simulated_access_token").2) := by
      unfold youtubeCallback
      rw [if_neg (by simp [herr]), if_neg (by simp [hcode]),
          if_neg (by simp [hid, hsec])]
    refine ⟨hmain, fun y hy => ?_⟩
    rw [hmain]
    exact setAccessToken_youtube_entry cfg y _ hy

/-- C7 witness: with a code, no error, and the youtube credentials
configured, the callback on a concrete service configuration answers
200 and stores the simulated token in the youtube entry. -/
theorem C7_callback_witness :
    youtubeCallback envYt cfgYt (some "auth-code-1") none
        = (.htmlPage 200 "YouTube Connected",
           (setAccessToken cfgYt "youtube" "simulated_access_token").2) ∧
      ((youtubeCallback envYt cfgYt (some "auth-code-1") none).2).youtube
        = some ⟨"yt-client-id", "yt-client-secret", none,
                some "simulated_access_token"⟩ := by
  have h := (C7_callback_with_code envYt cfgYt (some "auth-code-1") none
    rfl rfl).2 rfl rfl
  exact ⟨h.1, h.2 ⟨"yt-client-id", "yt-client-secret", none, none⟩ rfl⟩

theorem getAuthorizationUrl_truthy (env : Env) (c : SocialMediaAuthConfig)
    (platform : String) (baseUrl : Option String) (u : String)
    (h : getAuthorizationUrl env c platform baseUrl = some u) :
    truthyStr (some u) = true := by
  simp only [getAuthorizationUrl] at h
  split_ifs at h <;> first
    | exact Option.noConfusion h
    | (injection h with hu; subst hu; rfl)

/-- C8: the auth-URL endpoint answers 400 exactly when the authorization
URL builder yields nothing for the (sanitized) platform against the
reloaded configuration and the defaulted host, and otherwise returns
exactly the builder's URL as `{ authUrl }` — a URL is produced iff the
platform can currently be authorized. -/
theorem C8_authUrl_endpoint (env : Env) (cfg : SocialMediaAuthConfig)
    (p : String) (hostHdr : Option String) :
    (getAuthorizationUrl env (loadConfig env cfg) (sanitizeStr p)
        (some (hostOrDefault hostHdr)) = none →
      (authUrlHandler env cfg p hostHdr).1
        = .jsonErr 400 ("Platform " ++ sanitizeStr p
            ++ " is not configured or not supported")) ∧
    (∀ u, getAuthorizationUrl env (loadConfig env cfg) (sanitizeStr p)
        (some (hostOrDefault hostHdr)) = some u →
      (authUrlHandler env cfg p hostHdr).1 = .jsonAuthUrl u) := by
  constructor
  · intro h
    unfold authUrlHandler
    simp only [h]
    rfl
  · intro u h
    unfold authUrlHandler
    simp only [h]
    rw [if_neg (by simp [getAuthorizationUrl_truthy _ _ _ _ _ h])]
    rfl

set_option maxRecDepth 8000 in
/-- C8 witness: a concrete unsupported platform gets a 400 error, and a
concrete configured youtube request gets `{ authUrl }` with the
builder's URL. -/
theorem C8_authUrl_witness :
    (authUrlHandler envYt cfgEmpty "twitter" (some "app.example.com")).1
        = .jsonErr 400 "Platform twitter is not configured or not supported" ∧
      (authUrlHandler envYt cfgEmpty "youtube" (some "app.example.com")).1
        = .jsonAuthUrl ytAuthUrlEx := by
  constructor
  · have h := (C8_authUrl_endpoint envYt cfgEmpty "twitter" (some "app.example.com")).1
    have hs : sanitizeStr "twitter" = "twitter" := rfl
    rw [hs] at h
    exact h rfl
  · have h := (C8_authUrl_endpoint envYt cfgEmpty "youtube" (some "app.example.com")).2
    have hs : sanitizeStr "youtube" = "youtube" := rfl
    rw [hs] at h
    exact h ytAuthUrlEx (by decide)

/-- C9 (counterexample): the claim is false as stated — object keys are
not rewritten by `sanitizeInput`, so the sanitized output of
`{ "<": "a" }` still contains the string `"<"`, which contains the raw
character `<`. -/
theorem C9_counterexample :
    "<" ∈ jstringsAll (sanitizeInput (JValue.obj [("<", JValue.str "a")])) ∧
      cleanStr "<" = false := by
  constructor
  · simp [sanitizeInput, sanitizeFields, jstringsAll, jstringsAllFields]
  · decide

/-- C9 (amended): the request sanitizer is idempotent on every value
(string, array, or object, applied recursively), and every string value
in the sanitized output — array elements and object property values,
object keys being passed through unmodified — contains none of the raw
characters the sanitizer rewrites. -/
theorem C9_sanitize_idem_and_clean (x : JValue) :
    sanitizeInput (sanitizeInput x) = sanitizeInput x ∧
      ∀ s ∈ jstringsVals (sanitizeInput x), cleanStr s = true :=
  ⟨sanitizeInput_idem x, clean_jstringsVals x⟩

/-- C9 witness: the amended claim applied at the concrete string input
`"a"`. -/
theorem C9_sanitize_witness :
    sanitizeInput (sanitizeInput (JValue.str "a")) = sanitizeInput (JValue.str "a") ∧
      cleanStr (sanitizeStr "a") = true :=
  ⟨(C9_sanitize_idem_and_clean (JValue.str "a")).1,
   (C9_sanitize_idem_and_clean (JValue.str "a")).2 (sanitizeStr "a")
     (by simp [sanitizeInput, jstringsVals])⟩

theorem publishHandler_parse_error (pub : Video → List String → List PublishResult)
    (st : StorageState) (id : Int) (body : JValue) (msg : String)
    (h : parsePublishBody (sanitizeInput body) = .error msg) :
    publishHandler pub st id body = (.jsonMsg 400 msg, st) := by
  unfold publishHandler
  rw [h]

theorem publishHandler_video_missing (pub : Video → List String → List PublishResult)
    (st : StorageState) (id : Int) (body : JValue) (platforms : List String)
    (hp : parsePublishBody (sanitizeInput body) = .ok platforms)
    (hv : getVideo st id = none) :
    publishHandler pub st id body = (.jsonMsg 404 "Video not found", st) := by
  unfold publishHandler
  rw [hp, hv]

theorem publishHandler_no_media (pub : Video → List String → List PublishResult)
    (st : StorageState) (id : Int) (body : JValue) (platforms : List String)
    (video : Video)
    (hp : parsePublishBody (sanitizeInput body) = .ok platforms)
    (hv : getVideo st id = some video) (hu : video.videoUrl = none) :
    publishHandler pub st id body
      = (.jsonMsg 400 "Video has not been generated yet. Generate the video first.", st) := by
  unfold publishHandler
  rw [hp]
  dsimp only
  rw [hv]
  dsimp only
  rw [hu]

theorem publishHandler_ok (pub : Video → List String → List PublishResult)
    (st : StorageState) (id : Int) (body : JValue) (platforms : List String)
    (video : Video) (u : String)
    (hp : parsePublishBody (sanitizeInput body) = .ok platforms)
    (hv : getVideo st id = some video) (hu : video.videoUrl = some u) :
    publishHandler pub st id body = publishCore pub st id video platforms := by
  unfold publishHandler
  rw [hp]
  dsimp only
  rw [hv]
  dsimp only
  rw [hu]

theorem publishCore_response (pub : Video → List String → List PublishResult)
    (st : StorageState) (id : Int) (video : Video) (platforms : List String) :
    (publishCore pub st id video platforms).1
      = .jsonResults 200 (pub video platforms) := by
  unfold publishCore
  by_cases h : (pub video platforms).any (fun r => r.success) <;> simp [h]

/-- C1: once the request body validates, a publish request on a missing
video id answers 404 "Video not found", and on a video without a media
URL answers 400 — in both cases the returned state is exactly the
incoming state, so no activity, video, or any other record is touched,
and the result is the same for every publishing service `pub`, showing
the response is produced before any platform publish is attempted. -/
theorem C1_publish_preconditions (pub : Video → List String → List PublishResult)
    (st : StorageState) (id : Int) (body : JValue) (platforms : List String)
    (hp : parsePublishBody (sanitizeInput body) = .ok platforms) :
    (getVideo st id = none →
      publishHandler pub st id body = (.jsonMsg 404 "Video not found", st)) ∧
    (∀ video, getVideo st id = some video → video.videoUrl = none →
      publishHandler pub st id body
        = (.jsonMsg 400 "Video has not been generated yet. Generate the video first.", st)) :=
  ⟨fun hv => publishHandler_video_missing pub st id body platforms hp hv,
   fun video hv hu => publishHandler_no_media pub st id body platforms video hp hv hu⟩

theorem parse_bodyEx : parsePublishBody (sanitizeInput bodyEx) = .ok ["youtube"] := by
  have h1 : sanitizeInput bodyEx = bodyEx := by
    simp only [bodyEx, sanitizeInput, sanitizeFields, sanitizeList]
    rfl
  rw [h1]
  rfl

/-- C1 witness: the 404 and 400 precondition branches at concrete
states. -/
theorem C1_publish_witness :
    publishHandler pubFail stEmpty 1 bodyEx
        = (.jsonMsg 404 "Video not found", stEmpty) ∧
      publishHandler pubFail stNoUrl 2 bodyEx
        = (.jsonMsg 400 "Video has not been generated yet. Generate the video first.",
           stNoUrl) :=
  ⟨(C1_publish_preconditions pubFail stEmpty 1 bodyEx ["youtube"] parse_bodyEx).1 rfl,
   (C1_publish_preconditions pubFail stNoUrl 2 bodyEx ["youtube"] parse_bodyEx).2
     vidNoUrl rfl rfl⟩

/-- C2: for every publish request that passes validation on an existing
video with a media URL, whenever the publishing service returns a
result list (it is a total function here, modelling the non-throwing
case), the endpoint responds 200 with exactly that result list in the
body — whatever the individual results are, including all-failure
lists, so callers must inspect each result's success flag. -/
theorem C2_publish_returns_200 (pub : Video → List String → List PublishResult)
    (st : StorageState) (id : Int) (body : JValue) (platforms : List String)
    (video : Video) (u : String)
    (hp : parsePublishBody (sanitizeInput body) = .ok platforms)
    (hv : getVideo st id = some video) (hu : video.videoUrl = some u) :
    (publishHandler pub st id body).1 = .jsonResults 200 (pub video platforms) := by
  rw [publishHandler_ok pub st id body platforms video u hp hv hu]
  exact publishCore_response pub st id video platforms

/-- C2 witness: with a service whose only per-platform result fails, the
endpoint still answers 200 carrying that failing result. -/
theorem C2_publish_witness :
    (publishHandler pubFail stOne 1 bodyEx).1
      = .jsonResults 200
          [{ platform := "youtube", success := false, url := none,
             message := "Failed to publish" }] := by
  have h := C2_publish_returns_200 pubFail stOne 1 bodyEx ["youtube"] vid1
    "/videos/demo.mp4" parse_bodyEx rfl rfl
  rw [h]
  rfl

theorem lookupAssoc_setAssoc_self (k : Int) (v : Video) :
    ∀ l, lookupAssoc k (setAssoc k v l) = some v := by
  intro l
  induction l with
  | nil => simp [setAssoc, lookupAssoc]
  | cons kv rest ih =>
    by_cases h : kv.1 = k
    · simp [setAssoc, h, lookupAssoc]
    · simp [setAssoc, h, lookupAssoc, ih]

theorem allStrings_map_str : ∀ ps : List String, allStrings (ps.map .str) = some ps := by
  intro ps
  induction ps with
  | nil => rfl
  | cons p ps ih => simp [allStrings, ih]

theorem applyVideoUpdate_status (v : Video) (s : String) :
    applyVideoUpdate v (statusOnlyUpdate s) = { v with status := s } := by
  simp [applyVideoUpdate, statusOnlyUpdate]

theorem jlookup_cons (k : String) (kv : String × JValue) (rest : List (String × JValue)) :
    jlookup k (kv :: rest) = if kv.1 = k then some kv.2 else jlookup k rest := rfl

theorem detailsPlatforms_pubDetails (aid : Nat) (vid : Option Int) (uid : Int)
    (act : String) (x m : JValue) (ps : List String) (t : Int) :
    detailsPlatforms ⟨aid, vid, uid, act,
        some (.obj [("videoId", x), ("platforms", .arr (ps.map .str)), ("message", m)]), t⟩
      = some ps := by
  show allStrings (ps.map .str) = some ps
  exact allStrings_map_str ps

theorem publishCore_success (pub : Video → List String → List PublishResult)
    (st : StorageState) (id : Int) (video : Video) (platforms : List String)
    (hv : lookupAssoc id st.videos = some video)
    (h : (pub video platforms).any (fun r => r.success) = true) :
    getVideo (publishCore pub st id video platforms).2 id
        = some { video with status := "published" } ∧
      ∃ a ∈ (publishCore pub st id video platforms).2.activities,
        a.action = "video_published" ∧
          detailsPlatforms a
            = some (((pub video platforms).filter (fun r => r.success)).map
                (fun r => r.platform)) := by
  simp only [publishCore]
  rw [if_pos h]
  simp only [createActivity, updateVideo, getVideo, hv]
  constructor
  · rw [lookupAssoc_setAssoc_self, applyVideoUpdate_status]
  · refine ⟨_, List.mem_append_right _ (List.mem_singleton_self _), rfl, ?_⟩
    exact detailsPlatforms_pubDetails _ _ _ _ _ _ _ _

theorem publishCore_no_success (pub : Video → List String → List PublishResult)
    (st : StorageState) (id : Int) (video : Video) (platforms : List String)
    (h : (pub video platforms).any (fun r => r.success) = false) :
    (publishCore pub st id video platforms).2.videos = st.videos := by
  simp only [publishCore]
  rw [if_neg (by simp [h])]
  rfl

/-- C3: after the publish fan-out completes (on a validated request,
existing video, media URL present), the stored video is the original
record with status replaced by "published" exactly when at least one
per-platform result succeeded, and in that case a `video_published`
activity whose details list exactly the succeeding platforms is
recorded; when no result succeeded, the video map — and hence the video
record — is left unchanged. -/
theorem C3_publish_state (pub : Video → List String → List PublishResult)
    (st : StorageState) (id : Int) (body : JValue) (platforms : List String)
    (video : Video) (u : String)
    (hp : parsePublishBody (sanitizeInput body) = .ok platforms)
    (hv : getVideo st id = some video) (hu : video.videoUrl = some u) :
    ((pub video platforms).any (fun r => r.success) = true →
      getVideo (publishHandler pub st id body).2 id
          = some { video with status := "published" } ∧
        ∃ a ∈ (publishHandler pub st id body).2.activities,
          a.action = "video_published" ∧
            detailsPlatforms a
              = some (((pub video platforms).filter (fun r => r.success)).map
                  (fun r => r.platform))) ∧
    ((pub video platforms).any (fun r => r.success) = false →
      (publishHandler pub st id body).2.videos = st.videos) := by
  rw [publishHandler_ok pub st id body platforms video u hp hv hu]
  exact ⟨fun h => publishCore_success pub st id video platforms hv h,
         fun h => publishCore_no_success pub st id video platforms h⟩

/-- C3 witness: a concrete all-success publish marks the stored video
published and records the `video_published` activity listing exactly
`["youtube"]`. -/
theorem C3_publish_witness :
    getVideo (publishHandler pubOk stOne 1 bodyEx).2 1
        = some { vid1 with status := "published" } ∧
      ∃ a ∈ (publishHandler pubOk stOne 1 bodyEx).2.activities,
        a.action = "video_published" ∧ detailsPlatforms a = some ["youtube"] := by
  have h := (C3_publish_state pubOk stOne 1 bodyEx ["youtube"] vid1
    "/videos/demo.mp4" parse_bodyEx rfl rfl).1 rfl
  have hmap : ((pubOk vid1 ["youtube"]).filter (fun r => r.success)).map
      (fun r => r.platform) = ["youtube"] := rfl
  rw [hmap] at h
  exact h

theorem jlookup_sanitizeFields (k : String) :
    ∀ fs, jlookup k (sanitizeFields fs) = Option.map sanitizeInput (jlookup k fs) := by
  intro fs
  induction fs with
  | nil => simp [sanitizeFields, jlookup]
  | cons kv rest ih =>
    by_cases hk : kv.1 = k
    · simp [sanitizeFields, jlookup, hk]
    · simp [sanitizeFields, jlookup, hk, ih]

/-- C4: a publish request whose `platforms` list is empty is rejected as
a whole-request 400 validation failure ("At least one platform must be
selected") with the state returned untouched — holding for every
storage state and every publishing service, so neither the video lookup
nor any platform adapter can have been consulted; by contrast, whenever
the request is valid and the video publishable, the response status is
200 no matter what the per-platform results are, so per-platform errors
are never surfaced as whole-request failures. -/
theorem C4_empty_platforms_rejected (pub : Video → List String → List PublishResult)
    (st : StorageState) (id : Int) (fs : List (String × JValue))
    (h : jlookup "platforms" fs = some (.arr [])) :
    publishHandler pub st id (.obj fs)
        = (.jsonMsg 400 "At least one platform must be selected", st) ∧
    (∀ (body2 : JValue) (platforms : List String) (video : Video) (u2 : String),
      parsePublishBody (sanitizeInput body2) = .ok platforms →
      getVideo st id = some video → video.videoUrl = some u2 →
      statusOf (publishHandler pub st id body2).1 = 200) := by
  constructor
  · apply publishHandler_parse_error
    have hsan : sanitizeInput (JValue.obj fs) = .obj (sanitizeFields fs) := by
      simp [sanitizeInput]
    rw [hsan]
    unfold parsePublishBody
    dsimp only
    rw [jlookup_sanitizeFields, h]
    simp [sanitizeInput, sanitizeList, allStrings]
  · intro body2 platforms video u2 hp hv hu
    rw [publishHandler_ok pub st id body2 platforms video u2 hp hv hu,
        publishCore_response]
    rfl

/-- C4 witness: the empty-platforms body is rejected with 400 leaving
the state unchanged even though the video exists, while a valid body on
the same state gets a 200. -/
theorem C4_empty_platforms_witness :
    publishHandler pubFail stOne 1 bodyEmptyEx
        = (.jsonMsg 400 "At least one platform must be selected", stOne) ∧
      statusOf (publishHandler pubFail stOne 1 bodyEx).1 = 200 := by
  have h := C4_empty_platforms_rejected pubFail stOne 1
    [("platforms", JValue.arr [])] rfl
  exact ⟨h.1, h.2 bodyEx ["youtube"] vid1 "/videos/demo.mp4" parse_bodyEx rfl rfl⟩

/-- C10 (counterexample): the claim fails at `limit = 0` — a supplied
limit of 0 is falsy in JavaScript (`limit ? ... : ...`), so the query
returns all matching activities instead of at most 0. -/
theorem C10_counterexample :
    ¬ ((getActivitiesByUserId stActs 1 (some 0)).1.length ≤ 0) := by
  decide

/-- C10 (amended): the query leaves the stored activities unchanged and
returns exactly the activities of the user sorted newest first; when a
positive limit is supplied it returns the first (newest) `limit` of
them — at most `limit` entries, still sorted, and every returned entry
is at least as new as every entry cut off.  A supplied limit of 0 is
falsy in JavaScript and behaves like no limit (see the
counterexample). -/
theorem C10_activities_query (st : StorageState) (u : Int) :
    (∀ limit, (getActivitiesByUserId st u limit).2 = st) ∧
    (getActivitiesByUserId st u none).1.Perm
        (st.activities.filter (fun a => a.userId == u)) ∧
    List.Sorted actNewerEq (getActivitiesByUserId st u none).1 ∧
    (∀ k : Int, 0 < k →
      (getActivitiesByUserId st u (some k)).1
          = (sortedActivitiesFor st u).take k.toNat ∧
      (getActivitiesByUserId st u (some k)).1.length ≤ k.toNat ∧
      List.Sorted actNewerEq (getActivitiesByUserId st u (some k)).1 ∧
      ∀ a ∈ (getActivitiesByUserId st u (some k)).1,
        ∀ b ∈ (sortedActivitiesFor st u).drop k.toNat, actNewerEq a b) := by
  refine ⟨fun _ => rfl, List.perm_insertionSort actNewerEq _,
    List.sorted_insertionSort actNewerEq _, ?_⟩
  intro k hk
  have htr : jsTruthyIntOpt (some k) = true := by
    simp only [jsTruthyIntOpt, bne_iff_ne, ne_eq]
    omega
  have hsl : (getActivitiesByUserId st u (some k)).1
      = (sortedActivitiesFor st u).take k.toNat := by
    show (if jsTruthyIntOpt (some k)
          then jsSlice0 ((some k).getD 0) (sortedActivitiesFor st u)
          else sortedActivitiesFor st u)
        = (sortedActivitiesFor st u).take k.toNat
    rw [if_pos htr]
    show jsSlice0 k (sortedActivitiesFor st u) = _
    unfold jsSlice0
    rw [if_pos (le_of_lt hk)]
  have hp : List.Pairwise actNewerEq (sortedActivitiesFor st u) :=
    List.sorted_insertionSort actNewerEq _
  refine ⟨hsl, ?_, ?_, ?_⟩
  · rw [hsl]
    exact List.length_take_le _ _
  · rw [hsl]
    exact List.Pairwise.sublist (List.take_sublist _ _) hp
  · intro a ha b hb
    rw [hsl] at ha
    rw [← List.take_append_drop k.toNat (sortedActivitiesFor st u)] at hp
    exact (List.pairwise_append.mp hp).2.2 a ha b hb

/-- C10 witness: the amended claim applied at a concrete state with a
positive limit. -/
theorem C10_activities_witness :
    (getActivitiesByUserId stActs 1 (some 1)).1
        = (sortedActivitiesFor stActs 1).take 1 ∧
      (getActivitiesByUserId stActs 1 (some 1)).1.length ≤ 1 := by
  have h := (C10_activities_query stActs 1).2.2.2 1 (by decide)
  exact ⟨h.1, h.2.1⟩

end Vidiyome
